import Mathlib

/-!
Shallow embedding of the payment subsystem of the LMS-system repository:
the payment state machine (`materials/services/payment_service.py`), the
processor-client amount conversion (`materials/services/stripe_service.py`),
the creation-time validation (`materials/serializers.py`) and the HTTP
views that drive them (`materials/views.py`).

External processor calls are modelled by an oracle (`StripeOracle`) fixing
the outcome of each remote operation; database persistence is modelled by
an explicit list of Payment rows, and every operation additionally returns
the trace of persistence events and remote calls it performed, in program
order.
-/

/-- The payment status enumeration `Payment.PaymentStatus`
(values PENDING / PAID / FAILED used throughout the service code). -/
inductive PaymentStatus where
  | pending
  | paid
  | failed
deriving DecidableEq, Repr

/-- A course row: `materials.models.Course` (id, title, description, nullable owner). -/
structure Course where
  id : Nat
  title : String
  description : String
  owner : Option Nat
deriving DecidableEq, Repr

/-- Modelled from the spec: the `materials.models.Payment` model class itself is
not present under `src/materials/models.py`; its fields and the
PENDING/PAID/FAILED status enumeration are reconstructed from §3 of the spec
and from every field access in `payment_service.py`, `serializers.py` and
`views.py` (user, course, amount, payment_method, status, the four optional
remote identifiers and the checkout URL). -/
structure Payment where
  id : Nat
  user : Nat
  course : Nat
  amount : Rat
  payment_method : String
  status : PaymentStatus
  stripe_product_id : Option String
  stripe_price_id : Option String
  stripe_session_id : Option String
  stripe_payment_intent_id : Option String
  payment_url : Option String
deriving DecidableEq, Repr

/-- Row lookup `Payment.objects.get(id=payment_id)`: first row with the given primary key. -/
def getById (db : List Payment) (i : Nat) : Option Payment :=
  db.find? (fun p => p.id == i)

/-- Row lookup `Payment.objects.get(stripe_session_id=session_id)`. -/
def getBySession (db : List Payment) (sid : String) : Option Payment :=
  db.find? (fun p => p.stripe_session_id == some sid)

/-- Row write `payment.save()`: write the row back under its primary key. -/
def savePayment (db : List Payment) (p : Payment) : List Payment :=
  db.map (fun q => if q.id == p.id then p else q)

/-- Python truthiness of `session_result.get('payment_intent')`:
absent and empty-string values are falsy. -/
def pyTruthy : Option String → Bool
  | none => false
  | some s => !(s == "")

/-- Outcomes of the external processor's remote operations, fixed up front:
`StripeService.create_product` / `create_price` / `create_checkout_session`
(the last returning session id and url) / `retrieve_session` (returning
`payment_status` and optional `payment_intent`). -/
structure StripeOracle where
  product_result : Except String String
  price_result : Except String String
  session_result : Except String (String × String)
  retrieve_result : Except String (String × Option String)
deriving Repr

/-- One observable side effect: a database insert, a row save, or a remote
processor call (with its arguments), in program order. -/
inductive Event where
  | insertRow (p : Payment)
  | saveRow (p : Payment)
  | callCreateProduct (name descr : String)
  | callCreatePrice (amount : Rat) (product_id : String)
  | callCreateSession (price_id success_url cancel_url : String)
  | callRetrieveSession (session_id : String)
deriving DecidableEq, Repr

/-- The dictionary returned by `PaymentService.create_payment`. -/
structure CreateResult where
  success : Bool
  error : Option String
  payment : Option Payment
  payment_url : Option String
  session_id : Option String
deriving DecidableEq, Repr

/-- The row inserted by `Payment.objects.create(...)` at payment_service.py
lines 17-23: status PENDING, every remote identifier and the checkout URL
still absent. -/
def newPendingRow (newId user : Nat) (course : Course) (amount : Rat)
    (payment_method : String) : Payment :=
  { id := newId, user := user, course := course.id, amount := amount,
    payment_method := payment_method, status := PaymentStatus.pending,
    stripe_product_id := none, stripe_price_id := none, stripe_session_id := none,
    stripe_payment_intent_id := none, payment_url := none }

/-- Orchestrator operation `PaymentService.create_payment` (payment_service.py lines 11-87):
insert a PENDING row, then create product, price and checkout session with
the processor in that order, saving the row after each step; on any remote
failure mark the row FAILED, save it and return the prefixed processor
error. -/
def create_payment (db : List Payment) (newId : Nat) (user : Nat) (course : Course)
    (amount : Rat) (payment_method : String) (base_url : String) (st : StripeOracle) :
    CreateResult × List Payment × List Event :=
  let p0 : Payment := newPendingRow newId user course amount payment_method
  let db0 := db ++ [p0]
  let name := course.title
  let descr := if course.description ≠ "" then course.description.take 200 else ""
  match st.product_result with
  | Except.error e =>
      let p := { p0 with status := PaymentStatus.failed }
      ({ success := false, error := some ("Ошибка создания продукта: " ++ e),
         payment := none, payment_url := none, session_id := none },
       savePayment db0 p,
       [Event.insertRow p0, Event.callCreateProduct name descr, Event.saveRow p])
  | Except.ok product_id =>
      let p1 := { p0 with stripe_product_id := some product_id }
      let db1 := savePayment db0 p1
      match st.price_result with
      | Except.error e =>
          let p := { p1 with status := PaymentStatus.failed }
          ({ success := false, error := some ("Ошибка создания цены: " ++ e),
             payment := none, payment_url := none, session_id := none },
           savePayment db1 p,
           [Event.insertRow p0, Event.callCreateProduct name descr, Event.saveRow p1,
            Event.callCreatePrice amount product_id, Event.saveRow p])
      | Except.ok price_id =>
          let p2 := { p1 with stripe_price_id := some price_id }
          let db2 := savePayment db1 p2
          let success_url := base_url ++ "/api/payments/success/?session_id=\x7bCHECKOUT_SESSION_ID\x7d"
          let cancel_url := base_url ++ "/api/payments/cancel/"
          match st.session_result with
          | Except.error e =>
              let p := { p2 with status := PaymentStatus.failed }
              ({ success := false, error := some ("Ошибка создания сессии: " ++ e),
                 payment := none, payment_url := none, session_id := none },
               savePayment db2 p,
               [Event.insertRow p0, Event.callCreateProduct name descr, Event.saveRow p1,
                Event.callCreatePrice amount product_id, Event.saveRow p2,
                Event.callCreateSession price_id success_url cancel_url, Event.saveRow p])
          | Except.ok sess =>
              let p3 := { p2 with stripe_session_id := some sess.1, payment_url := some sess.2 }
              ({ success := true, error := none, payment := some p3,
                 payment_url := some sess.2, session_id := some sess.1 },
               savePayment db2 p3,
               [Event.insertRow p0, Event.callCreateProduct name descr, Event.saveRow p1,
                Event.callCreatePrice amount product_id, Event.saveRow p2,
                Event.callCreateSession price_id success_url cancel_url, Event.saveRow p3])

/-- The dictionary returned by `PaymentService.check_payment_status`. -/
structure CheckResult where
  success : Bool
  error : Option String
  payment : Option Payment
  stripe_status : Option String
  payment_status : Option PaymentStatus
deriving DecidableEq, Repr

/-- The status-update block of `PaymentService.check_payment_status`
(payment_service.py lines 117-127): map the remote `payment_status` string
onto the row, persisting the remote payment-intent id when it is present
(truthy) in a "paid" response. -/
def updated_payment (payment : Payment) (payment_status : String)
    (payment_intent : Option String) : Payment :=
  if payment_status = "paid" then
    let p := { payment with status := PaymentStatus.paid }
    if pyTruthy payment_intent then
      { p with stripe_payment_intent_id := payment_intent }
    else p
  else if payment_status = "unpaid" then
    { payment with status := PaymentStatus.pending }
  else
    { payment with status := PaymentStatus.failed }

/-- Orchestrator operation `PaymentService.check_payment_status` (payment_service.py lines 89-136):
look the payment up, require a session id, retrieve the session from the
processor, map its `payment_status` to the local status and save. -/
def check_payment_status (db : List Payment) (payment_id : Nat) (st : StripeOracle) :
    CheckResult × List Payment × List Event :=
  match getById db payment_id with
  | none =>
      ({ success := false, error := some "Платеж не найден",
         payment := none, stripe_status := none, payment_status := none }, db, [])
  | some payment =>
      match payment.stripe_session_id with
      | none =>
          ({ success := false, error := some "Платеж не связан с сессией Stripe",
             payment := none, stripe_status := none, payment_status := none }, db, [])
      | some sid =>
          match st.retrieve_result with
          | Except.error e =>
              ({ success := false, error := some e,
                 payment := none, stripe_status := none, payment_status := none },
               db, [Event.callRetrieveSession sid])
          | Except.ok res =>
              let payment_status := res.1
              let payment_intent := res.2
              let p1 := updated_payment payment payment_status payment_intent
              ({ success := true, error := none, payment := some p1,
                 stripe_status := some payment_status, payment_status := some p1.status },
               savePayment db p1,
               [Event.callRetrieveSession sid, Event.saveRow p1])

/-- The mapping from the processor's `payment_status` string to the local
status implemented by the branch at payment_service.py lines 120-127. -/
def remoteToStatus (s : String) : PaymentStatus :=
  if s = "paid" then PaymentStatus.paid
  else if s = "unpaid" then PaymentStatus.pending
  else PaymentStatus.failed

/-- The JSON body returned by `PaymentSuccessView.get`. -/
structure SuccessResult where
  http_status : Nat
  error : Option String
  message : Option String
  course_id : Option Nat
  course_title : Option String
deriving DecidableEq, Repr

/-- Permission list `PaymentSuccessView.permission_classes = []` (views.py line 592):
the success-redirect endpoint declares no permission classes. -/
def success_view_permissions : List (Option Nat → Bool) := []

/-- DRF permission dispatch: a request (authenticated caller or anonymous
`none`) is admitted iff every declared permission class admits it. -/
def permitted (perms : List (Option Nat → Bool)) (caller : Option Nat) : Bool :=
  perms.all (fun f => f caller)

/-- View handler `PaymentSuccessView.get` (views.py lines 594-620): read `session_id`
from the query string, look the payment up by it, unconditionally set
status PAID, save, and answer with the course id and title.
`course_title_of` stands for the `payment.course` foreign-key dereference;
`request_user` is never read by the handler body, mirroring the source. -/
def payment_success_get (course_title_of : Nat → String) (db : List Payment)
    (request_user : Option Nat) (session_id : Option String) :
    SuccessResult × List Payment × List Event :=
  match session_id with
  | none =>
      ({ http_status := 400, error := some "Session ID не предоставлен",
         message := none, course_id := none, course_title := none }, db, [])
  | some sid =>
      if sid = "" then
        ({ http_status := 400, error := some "Session ID не предоставлен",
           message := none, course_id := none, course_title := none }, db, [])
      else
        match getBySession db sid with
        | none =>
            ({ http_status := 404, error := some "Платеж не найден",
               message := none, course_id := none, course_title := none }, db, [])
        | some payment =>
            let p := { payment with status := PaymentStatus.paid }
            ({ http_status := 200, error := none, message := some "Платеж успешно выполнен",
               course_id := some p.course, course_title := some (course_title_of p.course) },
             savePayment db p, [Event.saveRow p])

/-- Serializer validation `PaymentCreateSerializer.validate` (serializers.py lines 97-122):
reject self-purchase, then reject a duplicate PAID payment for the same
(user, course) pair. -/
def payment_create_validate (db : List Payment) (request_user : Nat) (course : Course) :
    Except String Unit :=
  if course.owner = some request_user then
    Except.error "Вы не можете оплатить свой собственный курс"
  else if db.any (fun p => p.user == request_user && p.course == course.id
                    && p.status == PaymentStatus.paid) then
    Except.error "Вы уже оплатили этот курс"
  else
    Except.ok ()

/-- The HTTP response of `PaymentListCreateView.post`. -/
structure PostResult where
  http_status : Nat
  error : Option String
  payment : Option Payment
  payment_url : Option String
deriving DecidableEq, Repr

/-- View handler `PaymentListCreateView.post` (views.py lines 481-507): run serializer
validation (raising a 400 before any service work on failure), then call
`PaymentService.create_payment` and translate its result to 201 / 400. -/
def payment_list_create_post (db : List Payment) (newId : Nat) (request_user : Nat)
    (course : Course) (amount : Rat) (payment_method : String) (base_url : String)
    (st : StripeOracle) : PostResult × List Payment × List Event :=
  match payment_create_validate db request_user course with
  | Except.error msg =>
      ({ http_status := 400, error := some msg, payment := none, payment_url := none },
       db, [])
  | Except.ok _ =>
      match create_payment db newId request_user course amount payment_method base_url st with
      | (res, db1, ev) =>
          if res.success then
            ({ http_status := 201, error := none, payment := res.payment,
               payment_url := res.payment_url }, db1, ev)
          else
            ({ http_status := 400, error := res.error, payment := none,
               payment_url := none }, db1, ev)

/-- Conversion `int(amount * 100)` from `StripeService.create_price` (stripe_service.py
line 41): Python `int()` truncates toward zero; on an exact decimal amount
the multiplication by 100 is exact. -/
def amount_in_kopecks (amount : Rat) : Int :=
  (amount * 100).num.tdiv ((amount * 100).den : Int)

/-- The request payload `StripeService.create_price` hands to the processor
(stripe_service.py lines 43-47). -/
structure PriceRequest where
  unit_amount : Int
  currency : String
  product : String
deriving DecidableEq, Repr

/-- The `stripe.Price.create` call issued by `StripeService.create_price`. -/
def create_price_request (amount : Rat) (product_id : String) (currency : String) :
    PriceRequest :=
  { unit_amount := amount_in_kopecks amount, currency := currency, product := product_id }

/-! Section: Persistence-layer lemmas -/

theorem getById_id {db : List Payment} {i : Nat} {p : Payment}
    (h : getById db i = some p) : p.id = i := by
  unfold getById at h
  simpa using List.find?_some h

theorem savePayment_fresh (p : Payment) :
    ∀ db : List Payment, (∀ q ∈ db, q.id ≠ p.id) → savePayment db p = db := by
  intro db
  induction db with
  | nil => intro _; rfl
  | cons a l ih =>
    intro h
    have ha : (a.id == p.id) = false :=
      beq_eq_false_iff_ne.mpr (h a (List.mem_cons_self a l))
    have hl := ih (fun q hq => h q (List.mem_cons_of_mem a hq))
    simp only [savePayment, List.map_cons, ha, Bool.false_eq_true, if_false] at hl ⊢
    exact List.cons_eq_cons.mpr ⟨rfl, hl⟩

theorem savePayment_append (db : List Payment) (q0 p : Payment)
    (h : ∀ q ∈ db, q.id ≠ p.id) (hq : q0.id = p.id) :
    savePayment (db ++ [q0]) p = db ++ [p] := by
  have h1 := savePayment_fresh p db h
  unfold savePayment at h1 ⊢
  rw [List.map_append, h1]
  simp [hq]

theorem getById_savePayment (p : Payment) :
    ∀ db : List Payment, (getById db p.id).isSome →
      getById (savePayment db p) p.id = some p := by
  intro db
  induction db with
  | nil => intro h; simp [getById] at h
  | cons a l ih =>
    intro h
    by_cases ha : a.id = p.id
    · simp [getById, savePayment, ha]
    · have ha' : (a.id == p.id) = false := beq_eq_false_iff_ne.mpr ha
      unfold getById at h
      unfold getById savePayment
      rw [List.map_cons, if_neg (by simp [ha']), List.find?_cons_of_neg _ (by simp [ha'])]
      rw [List.find?_cons_of_neg _ (by simp [ha'])] at h
      exact ih h

theorem savePayment_savePayment (db : List Payment) (p p' : Payment) (h : p'.id = p.id) :
    savePayment (savePayment db p) p' = savePayment db p' := by
  unfold savePayment
  rw [List.map_map]
  apply List.map_congr_left
  intro q _
  by_cases hqp : q.id = p.id
  · simp [Function.comp, hqp, h]
  · have h1 : (q.id == p.id) = false := beq_eq_false_iff_ne.mpr hqp
    have h2 : (q.id == p'.id) = false := beq_eq_false_iff_ne.mpr (by rw [h]; exact hqp)
    simp [Function.comp, h1, h2]

/-! Section: Lemmas about the status-update block of CheckStatus -/

theorem updated_payment_id (p : Payment) (s : String) (i : Option String) :
    (updated_payment p s i).id = p.id := by
  unfold updated_payment
  split
  · split <;> rfl
  · split <;> rfl

theorem updated_payment_session (p : Payment) (s : String) (i : Option String) :
    (updated_payment p s i).stripe_session_id = p.stripe_session_id := by
  unfold updated_payment
  split
  · split <;> rfl
  · split <;> rfl

theorem updated_payment_status (p : Payment) (s : String) (i : Option String) :
    (updated_payment p s i).status = remoteToStatus s := by
  unfold updated_payment remoteToStatus
  by_cases h1 : s = "paid"
  · by_cases h2 : pyTruthy i = true <;> simp [h1, h2]
  · by_cases h3 : s = "unpaid" <;> simp [h1, h3]

theorem updated_payment_idem (p : Payment) (s : String) (i : Option String) :
    updated_payment (updated_payment p s i) s i = updated_payment p s i := by
  cases p
  unfold updated_payment
  by_cases h1 : s = "paid"
  · by_cases h2 : pyTruthy i = true <;> simp [h1, h2]
  · by_cases h3 : s = "unpaid" <;> simp [h1, h3]

/-! Section: Branch equations for the orchestrator operations -/

theorem check_status_notFound_eq (db : List Payment) (pid : Nat) (st : StripeOracle)
    (h : getById db pid = none) :
    check_payment_status db pid st =
      ({ success := false, error := some "Платеж не найден", payment := none,
         stripe_status := none, payment_status := none }, db, []) := by
  unfold check_payment_status
  rw [h]

theorem check_status_noSession_eq (db : List Payment) (pid : Nat) (st : StripeOracle)
    (payment : Payment) (hp : getById db pid = some payment)
    (hs : payment.stripe_session_id = none) :
    check_payment_status db pid st =
      ({ success := false, error := some "Платеж не связан с сессией Stripe", payment := none,
         stripe_status := none, payment_status := none }, db, []) := by
  unfold check_payment_status
  rw [hp]
  dsimp only
  rw [hs]

theorem check_status_retrieveFail_eq (db : List Payment) (pid : Nat) (st : StripeOracle)
    (payment : Payment) (sid e : String) (hp : getById db pid = some payment)
    (hs : payment.stripe_session_id = some sid) (hr : st.retrieve_result = Except.error e) :
    check_payment_status db pid st =
      ({ success := false, error := some e, payment := none,
         stripe_status := none, payment_status := none },
       db, [Event.callRetrieveSession sid]) := by
  unfold check_payment_status
  rw [hp]
  dsimp only
  rw [hs, hr]

theorem check_status_ok_eq (db : List Payment) (pid : Nat) (st : StripeOracle)
    (payment : Payment) (sid s : String) (intent : Option String)
    (hp : getById db pid = some payment) (hs : payment.stripe_session_id = some sid)
    (hr : st.retrieve_result = Except.ok (s, intent)) :
    check_payment_status db pid st =
      ({ success := true, error := none, payment := some (updated_payment payment s intent),
         stripe_status := some s,
         payment_status := some (updated_payment payment s intent).status },
       savePayment db (updated_payment payment s intent),
       [Event.callRetrieveSession sid, Event.saveRow (updated_payment payment s intent)]) := by
  unfold check_payment_status
  rw [hp]
  dsimp only
  rw [hs, hr]

theorem create_payment_productFail_eq (db : List Payment) (newId user : Nat) (course : Course)
    (amount : Rat) (payment_method base_url : String) (st : StripeOracle) (e : String)
    (hfresh : ∀ q ∈ db, q.id ≠ newId) (he : st.product_result = Except.error e) :
    create_payment db newId user course amount payment_method base_url st =
      ({ success := false, error := some ("Ошибка создания продукта: " ++ e),
         payment := none, payment_url := none, session_id := none },
       db ++ [{ newPendingRow newId user course amount payment_method with
                  status := PaymentStatus.failed }],
       [Event.insertRow (newPendingRow newId user course amount payment_method),
        Event.callCreateProduct course.title
          (if course.description ≠ "" then course.description.take 200 else ""),
        Event.saveRow { newPendingRow newId user course amount payment_method with
                          status := PaymentStatus.failed }]) := by
  unfold create_payment
  rw [he]
  dsimp only
  rw [savePayment_append db (newPendingRow newId user course amount payment_method)
        { newPendingRow newId user course amount payment_method with
            status := PaymentStatus.failed } hfresh rfl]

theorem create_payment_priceFail_eq (db : List Payment) (newId user : Nat) (course : Course)
    (amount : Rat) (payment_method base_url : String) (st : StripeOracle)
    (product_id e : String)
    (hfresh : ∀ q ∈ db, q.id ≠ newId)
    (hprod : st.product_result = Except.ok product_id)
    (he : st.price_result = Except.error e) :
    create_payment db newId user course amount payment_method base_url st =
      ({ success := false, error := some ("Ошибка создания цены: " ++ e),
         payment := none, payment_url := none, session_id := none },
       db ++ [{ newPendingRow newId user course amount payment_method with
                  stripe_product_id := some product_id, status := PaymentStatus.failed }],
       [Event.insertRow (newPendingRow newId user course amount payment_method),
        Event.callCreateProduct course.title
          (if course.description ≠ "" then course.description.take 200 else ""),
        Event.saveRow { newPendingRow newId user course amount payment_method with
                          stripe_product_id := some product_id },
        Event.callCreatePrice amount product_id,
        Event.saveRow { newPendingRow newId user course amount payment_method with
                          stripe_product_id := some product_id,
                          status := PaymentStatus.failed }]) := by
  unfold create_payment
  rw [hprod, he]
  dsimp only
  rw [savePayment_append db (newPendingRow newId user course amount payment_method)
        { newPendingRow newId user course amount payment_method with
            stripe_product_id := some product_id } hfresh rfl]
  rw [savePayment_append db
        { newPendingRow newId user course amount payment_method with
            stripe_product_id := some product_id }
        { newPendingRow newId user course amount payment_method with
            stripe_product_id := some product_id, status := PaymentStatus.failed } hfresh rfl]

theorem create_payment_sessionFail_eq (db : List Payment) (newId user : Nat) (course : Course)
    (amount : Rat) (payment_method base_url : String) (st : StripeOracle)
    (product_id price_id e : String)
    (hfresh : ∀ q ∈ db, q.id ≠ newId)
    (hprod : st.product_result = Except.ok product_id)
    (hprice : st.price_result = Except.ok price_id)
    (he : st.session_result = Except.error e) :
    create_payment db newId user course amount payment_method base_url st =
      ({ success := false, error := some ("Ошибка создания сессии: " ++ e),
         payment := none, payment_url := none, session_id := none },
       db ++ [{ newPendingRow newId user course amount payment_method with
                  stripe_product_id := some product_id, stripe_price_id := some price_id,
                  status := PaymentStatus.failed }],
       [Event.insertRow (newPendingRow newId user course amount payment_method),
        Event.callCreateProduct course.title
          (if course.description ≠ "" then course.description.take 200 else ""),
        Event.saveRow { newPendingRow newId user course amount payment_method with
                          stripe_product_id := some product_id },
        Event.callCreatePrice amount product_id,
        Event.saveRow { newPendingRow newId user course amount payment_method with
                          stripe_product_id := some product_id,
                          stripe_price_id := some price_id },
        Event.callCreateSession price_id
          (base_url ++ "/api/payments/success/?session_id=\x7bCHECKOUT_SESSION_ID\x7d")
          (base_url ++ "/api/payments/cancel/"),
        Event.saveRow { newPendingRow newId user course amount payment_method with
                          stripe_product_id := some product_id,
                          stripe_price_id := some price_id,
                          status := PaymentStatus.failed }]) := by
  unfold create_payment
  rw [hprod, hprice, he]
  dsimp only
  rw [savePayment_append db (newPendingRow newId user course amount payment_method)
        { newPendingRow newId user course amount payment_method with
            stripe_product_id := some product_id } hfresh rfl]
  rw [savePayment_append db
        { newPendingRow newId user course amount payment_method with
            stripe_product_id := some product_id }
        { newPendingRow newId user course amount payment_method with
            stripe_product_id := some product_id, stripe_price_id := some price_id }
        hfresh rfl]
  rw [savePayment_append db
        { newPendingRow newId user course amount payment_method with
            stripe_product_id := some product_id, stripe_price_id := some price_id }
        { newPendingRow newId user course amount payment_method with
            stripe_product_id := some product_id, stripe_price_id := some price_id,
            status := PaymentStatus.failed } hfresh rfl]

theorem create_payment_ok_eq (db : List Payment) (newId user : Nat) (course : Course)
    (amount : Rat) (payment_method base_url : String) (st : StripeOracle)
    (product_id price_id session_id session_url : String)
    (hfresh : ∀ q ∈ db, q.id ≠ newId)
    (hprod : st.product_result = Except.ok product_id)
    (hprice : st.price_result = Except.ok price_id)
    (hsess : st.session_result = Except.ok (session_id, session_url)) :
    create_payment db newId user course amount payment_method base_url st =
      ({ success := true, error := none,
         payment := some { newPendingRow newId user course amount payment_method with
                             stripe_product_id := some product_id,
                             stripe_price_id := some price_id,
                             stripe_session_id := some session_id,
                             payment_url := some session_url },
         payment_url := some session_url, session_id := some session_id },
       db ++ [{ newPendingRow newId user course amount payment_method with
                  stripe_product_id := some product_id, stripe_price_id := some price_id,
                  stripe_session_id := some session_id, payment_url := some session_url }],
       [Event.insertRow (newPendingRow newId user course amount payment_method),
        Event.callCreateProduct course.title
          (if course.description ≠ "" then course.description.take 200 else ""),
        Event.saveRow { newPendingRow newId user course amount payment_method with
                          stripe_product_id := some product_id },
        Event.callCreatePrice amount product_id,
        Event.saveRow { newPendingRow newId user course amount payment_method with
                          stripe_product_id := some product_id,
                          stripe_price_id := some price_id },
        Event.callCreateSession price_id
          (base_url ++ "/api/payments/success/?session_id=\x7bCHECKOUT_SESSION_ID\x7d")
          (base_url ++ "/api/payments/cancel/"),
        Event.saveRow { newPendingRow newId user course amount payment_method with
                          stripe_product_id := some product_id,
                          stripe_price_id := some price_id,
                          stripe_session_id := some session_id,
                          payment_url := some session_url }]) := by
  unfold create_payment
  rw [hprod, hprice, hsess]
  dsimp only
  rw [savePayment_append db (newPendingRow newId user course amount payment_method)
        { newPendingRow newId user course amount payment_method with
            stripe_product_id := some product_id } hfresh rfl]
  rw [savePayment_append db
        { newPendingRow newId user course amount payment_method with
            stripe_product_id := some product_id }
        { newPendingRow newId user course amount payment_method with
            stripe_product_id := some product_id, stripe_price_id := some price_id }
        hfresh rfl]
  rw [savePayment_append db
        { newPendingRow newId user course amount payment_method with
            stripe_product_id := some product_id, stripe_price_id := some price_id }
        { newPendingRow newId user course amount payment_method with
            stripe_product_id := some product_id, stripe_price_id := some price_id,
            stripe_session_id := some session_id, payment_url := some session_url }
        hfresh rfl]

theorem success_get_notFound_eq (ct : Nat → String) (db : List Payment) (u : Option Nat)
    (sid : String) (hne : sid ≠ "") (hp : getBySession db sid = none) :
    payment_success_get ct db u (some sid) =
      ({ http_status := 404, error := some "Платеж не найден", message := none,
         course_id := none, course_title := none }, db, []) := by
  unfold payment_success_get
  dsimp only
  rw [if_neg hne, hp]

theorem success_get_found_eq (ct : Nat → String) (db : List Payment) (u : Option Nat)
    (sid : String) (payment : Payment) (hne : sid ≠ "")
    (hp : getBySession db sid = some payment) :
    payment_success_get ct db u (some sid) =
      ({ http_status := 200, error := none, message := some "Платеж успешно выполнен",
         course_id := some payment.course, course_title := some (ct payment.course) },
       savePayment db { payment with status := PaymentStatus.paid },
       [Event.saveRow { payment with status := PaymentStatus.paid }]) := by
  unfold payment_success_get
  dsimp only
  rw [if_neg hne, hp]

/-! Section: Amount conversion -/

theorem amount_in_kopecks_nonneg (a : Rat) (h : 0 ≤ a) :
    amount_in_kopecks a = ⌊a * 100⌋ := by
  unfold amount_in_kopecks
  rw [Rat.floor_def]
  exact Int.tdiv_eq_ediv (Rat.num_nonneg.mpr (by positivity)) (Int.ofNat_nonneg _)

/-! Section: Claims -/

/-- C7: every monetary amount handed to the processor by `create_price` is
converted from the major-unit decimal to the minor-unit integer by
multiplying by 100 and truncating (for nonnegative amounts truncation is
the floor); in particular amount 19.99 yields the integer 1999 and amount
0.005 yields 0. -/
theorem price_amount_conversion (product_id currency : String) (a : Rat) (h : 0 ≤ a) :
    (create_price_request a product_id currency).unit_amount = ⌊a * 100⌋ ∧
    (create_price_request (1999 / 100) product_id currency).unit_amount = 1999 ∧
    (create_price_request (1 / 200) product_id currency).unit_amount = 0 := by
  refine ⟨amount_in_kopecks_nonneg a h, ?_, ?_⟩
  · show amount_in_kopecks (1999 / 100) = 1999
    rw [amount_in_kopecks_nonneg _ (by norm_num)]
    norm_num
  · show amount_in_kopecks (1 / 200) = 0
    rw [amount_in_kopecks_nonneg _ (by norm_num)]
    norm_num

/-- Witness for C7 at the concrete amount 19.99. -/
theorem price_amount_conversion_witness :
    (create_price_request (1999 / 100) "prod_1" "rub").unit_amount = ⌊(1999 / 100 : Rat) * 100⌋ ∧
    (create_price_request (1999 / 100) "prod_1" "rub").unit_amount = 1999 ∧
    (create_price_request (1 / 200) "prod_1" "rub").unit_amount = 0 :=
  price_amount_conversion "prod_1" "rub" (1999 / 100) (by norm_num)

/-- C8: `check_payment_status` answers "Платеж не найден" (NotFoundError) on an
unknown payment id and "Платеж не связан с сессией Stripe" (NoSessionError) on a
payment without a remote session id; in both cases the database is returned
unchanged and the event trace is empty, so the processor is never invoked
and no payment state is mutated. -/
theorem check_status_guards (db : List Payment) (pid : Nat) (st : StripeOracle) :
    (getById db pid = none →
      check_payment_status db pid st =
        ({ success := false, error := some "Платеж не найден", payment := none,
           stripe_status := none, payment_status := none }, db, [])) ∧
    (∀ payment, getById db pid = some payment → payment.stripe_session_id = none →
      check_payment_status db pid st =
        ({ success := false, error := some "Платеж не связан с сессией Stripe", payment := none,
           stripe_status := none, payment_status := none }, db, [])) :=
  ⟨fun h => check_status_notFound_eq db pid st h,
   fun payment hp hs => check_status_noSession_eq db pid st payment hp hs⟩

/-- Witness for C8: an empty store (unknown id) and a session-less payment. -/
theorem check_status_guards_witness :
    (check_payment_status [] 1
        { product_result := Except.ok "", price_result := Except.ok "",
          session_result := Except.ok ("", ""), retrieve_result := Except.ok ("paid", none) } =
      ({ success := false, error := some "Платеж не найден", payment := none,
         stripe_status := none, payment_status := none }, [], [])) ∧
    (check_payment_status
        [{ id := 1, user := 2, course := 3, amount := 100, payment_method := "card",
           status := PaymentStatus.pending, stripe_product_id := none, stripe_price_id := none,
           stripe_session_id := none, stripe_payment_intent_id := none, payment_url := none }] 1
        { product_result := Except.ok "", price_result := Except.ok "",
          session_result := Except.ok ("", ""), retrieve_result := Except.ok ("paid", none) } =
      ({ success := false, error := some "Платеж не связан с сессией Stripe", payment := none,
         stripe_status := none, payment_status := none },
       [{ id := 1, user := 2, course := 3, amount := 100, payment_method := "card",
          status := PaymentStatus.pending, stripe_product_id := none, stripe_price_id := none,
          stripe_session_id := none, stripe_payment_intent_id := none, payment_url := none }],
       [])) :=
  ⟨(check_status_guards [] 1 _).1 rfl,
   (check_status_guards [_] 1 _).2 _ rfl rfl⟩

/-- C10: the success-redirect endpoint declares no permission classes, so every
caller (authenticated or anonymous) is admitted, and the handler's result and
state transition are identical for any two callers: the caller's identity has
no influence on the outcome. -/
theorem success_endpoint_caller_independent :
    (∀ caller : Option Nat, permitted success_view_permissions caller = true) ∧
    (∀ (ct : Nat → String) (db : List Payment) (sid : Option String) (c1 c2 : Option Nat),
       payment_success_get ct db c1 sid = payment_success_get ct db c2 sid) :=
  ⟨fun _ => rfl, fun _ _ _ _ _ => rfl⟩

/-- C2 counterexample: when `retrieve_session` fails (here with "card declined"),
`check_payment_status` returns the processor error but leaves the stored
payment untouched: the database is unchanged and the payment's status is
still PENDING, not FAILED — refuting the claim that the payment is marked
FAILED and persisted on a RetrieveSession failure. -/
theorem retrieve_failure_not_marked_failed_cex :
    (check_payment_status
        [{ id := 1, user := 2, course := 3, amount := 100, payment_method := "card",
           status := PaymentStatus.pending, stripe_product_id := none, stripe_price_id := none,
           stripe_session_id := some "sess_1", stripe_payment_intent_id := none,
           payment_url := none }] 1
        { product_result := Except.ok "", price_result := Except.ok "",
          session_result := Except.ok ("", ""),
          retrieve_result := Except.error "card declined" }).1.error = some "card declined" ∧
    (check_payment_status
        [{ id := 1, user := 2, course := 3, amount := 100, payment_method := "card",
           status := PaymentStatus.pending, stripe_product_id := none, stripe_price_id := none,
           stripe_session_id := some "sess_1", stripe_payment_intent_id := none,
           payment_url := none }] 1
        { product_result := Except.ok "", price_result := Except.ok "",
          session_result := Except.ok ("", ""),
          retrieve_result := Except.error "card declined" }).2.1 =
      [{ id := 1, user := 2, course := 3, amount := 100, payment_method := "card",
         status := PaymentStatus.pending, stripe_product_id := none, stripe_price_id := none,
         stripe_session_id := some "sess_1", stripe_payment_intent_id := none,
         payment_url := none }] ∧
    (PaymentStatus.pending ≠ PaymentStatus.failed) :=
  ⟨rfl, rfl, by decide⟩

/-- C2 amended: if the payment exists and has a remote session id and the
RetrieveSession remote call fails, `check_payment_status` surfaces the
original processor error string unchanged to the caller, but does NOT mark
the payment FAILED: the database is returned unchanged and the only event
is the remote call itself (no save). -/
theorem check_status_remote_failure_preserves_payment (db : List Payment) (pid : Nat)
    (st : StripeOracle) (payment : Payment) (sid e : String)
    (hp : getById db pid = some payment) (hs : payment.stripe_session_id = some sid)
    (hr : st.retrieve_result = Except.error e) :
    check_payment_status db pid st =
      ({ success := false, error := some e, payment := none,
         stripe_status := none, payment_status := none },
       db, [Event.callRetrieveSession sid]) :=
  check_status_retrieveFail_eq db pid st payment sid e hp hs hr

/-- Witness for the amended C2 at a concrete payment and error. -/
theorem check_status_remote_failure_preserves_payment_witness :
    check_payment_status
        [{ id := 4, user := 2, course := 3, amount := 250, payment_method := "card",
           status := PaymentStatus.pending, stripe_product_id := some "prod_1",
           stripe_price_id := some "price_1", stripe_session_id := some "sess_9",
           stripe_payment_intent_id := none, payment_url := none }] 4
        { product_result := Except.ok "", price_result := Except.ok "",
          session_result := Except.ok ("", ""), retrieve_result := Except.error "boom" } =
      ({ success := false, error := some "boom", payment := none,
         stripe_status := none, payment_status := none },
       [{ id := 4, user := 2, course := 3, amount := 250, payment_method := "card",
          status := PaymentStatus.pending, stripe_product_id := some "prod_1",
          stripe_price_id := some "price_1", stripe_session_id := some "sess_9",
          stripe_payment_intent_id := none, payment_url := none }],
       [Event.callRetrieveSession "sess_9"]) :=
  check_status_remote_failure_preserves_payment _ 4 _ _ "sess_9" "boom" rfl rfl rfl

/-- C3: when the payment exists, has a session id, and RetrieveSession
succeeds with remote status `s`, `check_payment_status` maps `s` exactly as
"paid" → PAID, "unpaid" → PENDING, anything else → FAILED; on a "paid"
response with a (truthy) payment-intent id present, that id is persisted on
the payment; the updated row is always saved back to the store and the
resulting status is returned in the result's `payment_status`. -/
theorem check_status_mapping (db : List Payment) (pid : Nat) (st : StripeOracle)
    (payment : Payment) (sid s : String) (intent : Option String)
    (hp : getById db pid = some payment) (hs : payment.stripe_session_id = some sid)
    (hr : st.retrieve_result = Except.ok (s, intent)) :
    check_payment_status db pid st =
      ({ success := true, error := none, payment := some (updated_payment payment s intent),
         stripe_status := some s, payment_status := some (remoteToStatus s) },
       savePayment db (updated_payment payment s intent),
       [Event.callRetrieveSession sid, Event.saveRow (updated_payment payment s intent)]) ∧
    (updated_payment payment s intent).status = remoteToStatus s ∧
    (s = "paid" → pyTruthy intent = true →
      (updated_payment payment s intent).stripe_payment_intent_id = intent) ∧
    getById (savePayment db (updated_payment payment s intent)) pid =
      some (updated_payment payment s intent) := by
  refine ⟨?_, updated_payment_status payment s intent, ?_, ?_⟩
  · rw [check_status_ok_eq db pid st payment sid s intent hp hs hr, updated_payment_status]
  · intro h1 h2
    unfold updated_payment
    rw [if_pos h1]
    dsimp only
    rw [if_pos h2]
  · have hid : (updated_payment payment s intent).id = pid := by
      rw [updated_payment_id]; exact getById_id hp
    have hsome : (getById db (updated_payment payment s intent).id).isSome := by
      rw [hid, hp]; rfl
    have hsave := getById_savePayment (updated_payment payment s intent) db hsome
    rw [hid] at hsave
    exact hsave

/-- Witness for C3: a "paid" response carrying payment intent "pi_1" moves the
concrete pending payment to PAID, persists the intent id, and saves the row. -/
theorem check_status_mapping_witness :
    check_payment_status
        [{ id := 1, user := 2, course := 3, amount := 100, payment_method := "card",
           status := PaymentStatus.pending, stripe_product_id := none, stripe_price_id := none,
           stripe_session_id := some "sess_1", stripe_payment_intent_id := none,
           payment_url := none }] 1
        { product_result := Except.ok "", price_result := Except.ok "",
          session_result := Except.ok ("", ""),
          retrieve_result := Except.ok ("paid", some "pi_1") } =
      ({ success := true, error := none,
         payment := some
           { id := 1, user := 2, course := 3, amount := 100, payment_method := "card",
             status := PaymentStatus.paid, stripe_product_id := none, stripe_price_id := none,
             stripe_session_id := some "sess_1", stripe_payment_intent_id := some "pi_1",
             payment_url := none },
         stripe_status := some "paid", payment_status := some PaymentStatus.paid },
       [{ id := 1, user := 2, course := 3, amount := 100, payment_method := "card",
          status := PaymentStatus.paid, stripe_product_id := none, stripe_price_id := none,
          stripe_session_id := some "sess_1", stripe_payment_intent_id := some "pi_1",
          payment_url := none }],
       [Event.callRetrieveSession "sess_1",
        Event.saveRow
          { id := 1, user := 2, course := 3, amount := 100, payment_method := "card",
            status := PaymentStatus.paid, stripe_product_id := none, stripe_price_id := none,
            stripe_session_id := some "sess_1", stripe_payment_intent_id := some "pi_1",
            payment_url := none }]) ∧
    PaymentStatus.paid = remoteToStatus "paid" :=
  ⟨(check_status_mapping
      [{ id := 1, user := 2, course := 3, amount := 100, payment_method := "card",
         status := PaymentStatus.pending, stripe_product_id := none, stripe_price_id := none,
         stripe_session_id := some "sess_1", stripe_payment_intent_id := none,
         payment_url := none }] 1
      { product_result := Except.ok "", price_result := Except.ok "",
        session_result := Except.ok ("", ""),
        retrieve_result := Except.ok ("paid", some "pi_1") }
      { id := 1, user := 2, course := 3, amount := 100, payment_method := "card",
        status := PaymentStatus.pending, stripe_product_id := none, stripe_price_id := none,
        stripe_session_id := some "sess_1", stripe_payment_intent_id := none,
        payment_url := none } "sess_1" "paid" (some "pi_1") rfl rfl rfl).1, rfl⟩

/-- C6: for a nonempty session id, the success-redirect handler answers
"Платеж не найден" (404, NotFoundError) with no state change when no payment
carries that session id; otherwise it unconditionally sets the found
payment's status to PAID — whatever its prior status, including FAILED — and
saves it, performing no processor call (the trace holds only the save), and
returns the payment's course id and course title. -/
theorem success_redirect_spec (ct : Nat → String) (db : List Payment) (u : Option Nat)
    (sid : String) (hne : sid ≠ "") :
    (getBySession db sid = none →
      payment_success_get ct db u (some sid) =
        ({ http_status := 404, error := some "Платеж не найден", message := none,
           course_id := none, course_title := none }, db, [])) ∧
    (∀ payment, getBySession db sid = some payment →
      payment_success_get ct db u (some sid) =
        ({ http_status := 200, error := none, message := some "Платеж успешно выполнен",
           course_id := some payment.course, course_title := some (ct payment.course) },
         savePayment db { payment with status := PaymentStatus.paid },
         [Event.saveRow { payment with status := PaymentStatus.paid }])) :=
  ⟨fun h => success_get_notFound_eq ct db u sid hne h,
   fun payment hp => success_get_found_eq ct db u sid payment hne hp⟩

/-- Witness for C6: a FAILED payment carrying session id "sess_1" is set to
PAID by the redirect handler, and an unknown session id yields a 404 with
no state change. -/
theorem success_redirect_spec_witness :
    (payment_success_get (fun _ => "Course 3") [] (some 9) (some "sess_404") =
      ({ http_status := 404, error := some "Платеж не найден", message := none,
         course_id := none, course_title := none }, [], [])) ∧
    (payment_success_get (fun _ => "Course 3")
        [{ id := 1, user := 2, course := 3, amount := 100, payment_method := "card",
           status := PaymentStatus.failed, stripe_product_id := none, stripe_price_id := none,
           stripe_session_id := some "sess_1", stripe_payment_intent_id := none,
           payment_url := none }] none (some "sess_1") =
      ({ http_status := 200, error := none, message := some "Платеж успешно выполнен",
         course_id := some 3, course_title := some "Course 3" },
       [{ id := 1, user := 2, course := 3, amount := 100, payment_method := "card",
          status := PaymentStatus.paid, stripe_product_id := none, stripe_price_id := none,
          stripe_session_id := some "sess_1", stripe_payment_intent_id := none,
          payment_url := none }],
       [Event.saveRow
         { id := 1, user := 2, course := 3, amount := 100, payment_method := "card",
           status := PaymentStatus.paid, stripe_product_id := none, stripe_price_id := none,
           stripe_session_id := some "sess_1", stripe_payment_intent_id := none,
           payment_url := none }])) :=
  ⟨(success_redirect_spec (fun _ => "Course 3") [] (some 9) "sess_404"
      (by decide)).1 rfl,
   (success_redirect_spec (fun _ => "Course 3")
      [{ id := 1, user := 2, course := 3, amount := 100, payment_method := "card",
         status := PaymentStatus.failed, stripe_product_id := none, stripe_price_id := none,
         stripe_session_id := some "sess_1", stripe_payment_intent_id := none,
         payment_url := none }] none "sess_1" (by decide)).2
     { id := 1, user := 2, course := 3, amount := 100, payment_method := "card",
       status := PaymentStatus.failed, stripe_product_id := none, stripe_price_id := none,
       stripe_session_id := some "sess_1", stripe_payment_intent_id := none,
       payment_url := none } rfl⟩

/-- C5: a `CreatePayment` request for a course owned by the requesting user, or
for a course the user already holds a PAID payment for, is rejected by
serializer validation with a 400 before any service work: the database is
unchanged (no Payment row created) and the event trace is empty (no remote
call, no other side effect). -/
theorem create_validation_rejects_before_side_effects
    (db : List Payment) (newId request_user : Nat) (course : Course) (amount : Rat)
    (payment_method base_url : String) (st : StripeOracle)
    (h : course.owner = some request_user ∨
         ∃ p ∈ db, p.user = request_user ∧ p.course = course.id ∧
           p.status = PaymentStatus.paid) :
    ∃ msg, payment_list_create_post db newId request_user course amount payment_method
        base_url st =
      ({ http_status := 400, error := some msg, payment := none, payment_url := none },
       db, []) := by
  unfold payment_list_create_post payment_create_validate
  by_cases howner : course.owner = some request_user
  · rw [if_pos howner]
    exact ⟨_, rfl⟩
  · rcases h with h | ⟨p, hpmem, h1, h2, h3⟩
    · exact absurd h howner
    · have hany : (db.any (fun p => p.user == request_user && p.course == course.id
          && p.status == PaymentStatus.paid)) = true :=
        List.any_eq_true.mpr ⟨p, hpmem, by simp [h1, h2, h3]⟩
      rw [if_neg howner, if_pos hany]
      exact ⟨_, rfl⟩

/-- Witness for C5: the self-purchase case (course owner equals requester)
on an empty store. -/
theorem create_validation_rejects_witness :
    ∃ msg, payment_list_create_post [] 7 1
        { id := 3, title := "t", description := "d", owner := some 1 } 100 "card" "http://b"
        { product_result := Except.ok "prod_1", price_result := Except.ok "price_1",
          session_result := Except.ok ("sess_1", "https://pay/sess_1"),
          retrieve_result := Except.ok ("paid", none) } =
      ({ http_status := 400, error := some msg, payment := none, payment_url := none },
       [], []) :=
  create_validation_rejects_before_side_effects [] 7 1
    { id := 3, title := "t", description := "d", owner := some 1 } 100 "card" "http://b"
    { product_result := Except.ok "prod_1", price_result := Except.ok "price_1",
      session_result := Except.ok ("sess_1", "https://pay/sess_1"),
      retrieve_result := Except.ok ("paid", none) } (Or.inl rfl)

/-- C4: `create_payment` requests remote identifiers strictly in the order
product → price → session, and each identifier is saved on the row before
the next remote call (visible in the event traces below: `saveRow` with the
new id precedes the next `callCreate…`). On a failure at any step the row is
saved with status FAILED keeping every id obtained so far and none of the
later ones, and the returned error is the processor's error string prefixed
with a step description (so it contains the original error). The four
conjuncts characterise the product-failure, price-failure, session-failure
and full-success runs completely. -/
theorem create_payment_ordering_and_failure_policy
    (db : List Payment) (newId user : Nat) (course : Course) (amount : Rat)
    (payment_method base_url : String) (st : StripeOracle)
    (hfresh : ∀ q ∈ db, q.id ≠ newId) :
    (∀ e, st.product_result = Except.error e →
      create_payment db newId user course amount payment_method base_url st =
        ({ success := false, error := some ("Ошибка создания продукта: " ++ e),
           payment := none, payment_url := none, session_id := none },
         db ++ [{ newPendingRow newId user course amount payment_method with
                    status := PaymentStatus.failed }],
         [Event.insertRow (newPendingRow newId user course amount payment_method),
          Event.callCreateProduct course.title
            (if course.description ≠ "" then course.description.take 200 else ""),
          Event.saveRow { newPendingRow newId user course amount payment_method with
                            status := PaymentStatus.failed }])) ∧
    (∀ product_id e, st.product_result = Except.ok product_id →
        st.price_result = Except.error e →
      create_payment db newId user course amount payment_method base_url st =
        ({ success := false, error := some ("Ошибка создания цены: " ++ e),
           payment := none, payment_url := none, session_id := none },
         db ++ [{ newPendingRow newId user course amount payment_method with
                    stripe_product_id := some product_id, status := PaymentStatus.failed }],
         [Event.insertRow (newPendingRow newId user course amount payment_method),
          Event.callCreateProduct course.title
            (if course.description ≠ "" then course.description.take 200 else ""),
          Event.saveRow { newPendingRow newId user course amount payment_method with
                            stripe_product_id := some product_id },
          Event.callCreatePrice amount product_id,
          Event.saveRow { newPendingRow newId user course amount payment_method with
                            stripe_product_id := some product_id,
                            status := PaymentStatus.failed }])) ∧
    (∀ product_id price_id e, st.product_result = Except.ok product_id →
        st.price_result = Except.ok price_id → st.session_result = Except.error e →
      create_payment db newId user course amount payment_method base_url st =
        ({ success := false, error := some ("Ошибка создания сессии: " ++ e),
           payment := none, payment_url := none, session_id := none },
         db ++ [{ newPendingRow newId user course amount payment_method with
                    stripe_product_id := some product_id, stripe_price_id := some price_id,
                    status := PaymentStatus.failed }],
         [Event.insertRow (newPendingRow newId user course amount payment_method),
          Event.callCreateProduct course.title
            (if course.description ≠ "" then course.description.take 200 else ""),
          Event.saveRow { newPendingRow newId user course amount payment_method with
                            stripe_product_id := some product_id },
          Event.callCreatePrice amount product_id,
          Event.saveRow { newPendingRow newId user course amount payment_method with
                            stripe_product_id := some product_id,
                            stripe_price_id := some price_id },
          Event.callCreateSession price_id
            (base_url ++ "/api/payments/success/?session_id=\x7bCHECKOUT_SESSION_ID\x7d")
            (base_url ++ "/api/payments/cancel/"),
          Event.saveRow { newPendingRow newId user course amount payment_method with
                            stripe_product_id := some product_id,
                            stripe_price_id := some price_id,
                            status := PaymentStatus.failed }])) ∧
    (∀ product_id price_id session_id session_url,
        st.product_result = Except.ok product_id → st.price_result = Except.ok price_id →
        st.session_result = Except.ok (session_id, session_url) →
      create_payment db newId user course amount payment_method base_url st =
        ({ success := true, error := none,
           payment := some { newPendingRow newId user course amount payment_method with
                               stripe_product_id := some product_id,
                               stripe_price_id := some price_id,
                               stripe_session_id := some session_id,
                               payment_url := some session_url },
           payment_url := some session_url, session_id := some session_id },
         db ++ [{ newPendingRow newId user course amount payment_method with
                    stripe_product_id := some product_id, stripe_price_id := some price_id,
                    stripe_session_id := some session_id, payment_url := some session_url }],
         [Event.insertRow (newPendingRow newId user course amount payment_method),
          Event.callCreateProduct course.title
            (if course.description ≠ "" then course.description.take 200 else ""),
          Event.saveRow { newPendingRow newId user course amount payment_method with
                            stripe_product_id := some product_id },
          Event.callCreatePrice amount product_id,
          Event.saveRow { newPendingRow newId user course amount payment_method with
                            stripe_product_id := some product_id,
                            stripe_price_id := some price_id },
          Event.callCreateSession price_id
            (base_url ++ "/api/payments/success/?session_id=\x7bCHECKOUT_SESSION_ID\x7d")
            (base_url ++ "/api/payments/cancel/"),
          Event.saveRow { newPendingRow newId user course amount payment_method with
                            stripe_product_id := some product_id,
                            stripe_price_id := some price_id,
                            stripe_session_id := some session_id,
                            payment_url := some session_url }])) :=
  ⟨fun e he =>
      create_payment_productFail_eq db newId user course amount payment_method base_url
        st e hfresh he,
   fun product_id e hprod he =>
      create_payment_priceFail_eq db newId user course amount payment_method base_url
        st product_id e hfresh hprod he,
   fun product_id price_id e hprod hprice he =>
      create_payment_sessionFail_eq db newId user course amount payment_method base_url
        st product_id price_id e hfresh hprod hprice he,
   fun product_id price_id session_id session_url hprod hprice hsess =>
      create_payment_ok_eq db newId user course amount payment_method base_url
        st product_id price_id session_id session_url hfresh hprod hprice hsess⟩

/-- Witness for C4: the spec's end-to-end scenario — CreateProduct fails with
"account restricted": the row is saved FAILED with no remote ids, later steps
are never called, and the returned error contains "account restricted". -/
theorem create_payment_ordering_witness :
    create_payment [] 5 1 { id := 3, title := "Course", description := "", owner := some 2 }
        1000 "card" "http://b"
        { product_result := Except.error "account restricted",
          price_result := Except.ok "price_1",
          session_result := Except.ok ("sess_1", "https://pay/sess_1"),
          retrieve_result := Except.ok ("paid", none) } =
      ({ success := false, error := some "Ошибка создания продукта: account restricted",
         payment := none, payment_url := none, session_id := none },
       [{ id := 5, user := 1, course := 3, amount := 1000, payment_method := "card",
          status := PaymentStatus.failed, stripe_product_id := none, stripe_price_id := none,
          stripe_session_id := none, stripe_payment_intent_id := none, payment_url := none }],
       [Event.insertRow
          { id := 5, user := 1, course := 3, amount := 1000, payment_method := "card",
            status := PaymentStatus.pending, stripe_product_id := none, stripe_price_id := none,
            stripe_session_id := none, stripe_payment_intent_id := none, payment_url := none },
        Event.callCreateProduct "Course" "",
        Event.saveRow
          { id := 5, user := 1, course := 3, amount := 1000, payment_method := "card",
            status := PaymentStatus.failed, stripe_product_id := none, stripe_price_id := none,
            stripe_session_id := none, stripe_payment_intent_id := none,
            payment_url := none }]) :=
  (create_payment_ordering_and_failure_policy [] 5 1
      { id := 3, title := "Course", description := "", owner := some 2 } 1000 "card" "http://b"
      { product_result := Except.error "account restricted",
        price_result := Except.ok "price_1",
        session_result := Except.ok ("sess_1", "https://pay/sess_1"),
        retrieve_result := Except.ok ("paid", none) }
      (by intro q hq; cases hq)).1 "account restricted" rfl

/-- C1 counterexample: `check_payment_status` on a payment already in the
terminal state PAID, with the remote session reporting "unpaid", moves the
payment back to PENDING and persists that — a transition out of a terminal
state, refuting the claim that statuses only move forward. -/
theorem check_status_exits_terminal_cex :
    (check_payment_status
        [{ id := 1, user := 2, course := 3, amount := 100, payment_method := "card",
           status := PaymentStatus.paid, stripe_product_id := none, stripe_price_id := none,
           stripe_session_id := some "sess_1", stripe_payment_intent_id := none,
           payment_url := none }] 1
        { product_result := Except.ok "", price_result := Except.ok "",
          session_result := Except.ok ("", ""),
          retrieve_result := Except.ok ("unpaid", none) }).1.payment_status =
      some PaymentStatus.pending ∧
    (check_payment_status
        [{ id := 1, user := 2, course := 3, amount := 100, payment_method := "card",
           status := PaymentStatus.paid, stripe_product_id := none, stripe_price_id := none,
           stripe_session_id := some "sess_1", stripe_payment_intent_id := none,
           payment_url := none }] 1
        { product_result := Except.ok "", price_result := Except.ok "",
          session_result := Except.ok ("", ""),
          retrieve_result := Except.ok ("unpaid", none) }).2.1 =
      [{ id := 1, user := 2, course := 3, amount := 100, payment_method := "card",
         status := PaymentStatus.pending, stripe_product_id := none, stripe_price_id := none,
         stripe_session_id := some "sess_1", stripe_payment_intent_id := none,
         payment_url := none }] ∧
    PaymentStatus.paid ≠ PaymentStatus.pending :=
  ⟨rfl, rfl, by decide⟩

/-- C1 amended: only `create_payment` respects the forward-only state
machine — it appends one new row whose final status is PENDING or FAILED
and leaves every pre-existing row unchanged. `check_payment_status` instead
computes the new status purely from the remote status, regardless of the
prior local status (terminal or not), and the success-redirect handler
unconditionally sets PAID; both can therefore move a payment out of a
terminal state. -/
theorem status_update_characterization :
    (∀ (db : List Payment) (newId user : Nat) (course : Course) (amount : Rat)
        (payment_method base_url : String) (st : StripeOracle),
      (∀ q ∈ db, q.id ≠ newId) →
      ∃ p : Payment,
        (create_payment db newId user course amount payment_method base_url st).2.1 =
          db ++ [p] ∧ p.id = newId ∧
        (p.status = PaymentStatus.pending ∨ p.status = PaymentStatus.failed)) ∧
    (∀ (db : List Payment) (pid : Nat) (st : StripeOracle) (payment : Payment)
        (sid s : String) (intent : Option String),
      getById db pid = some payment → payment.stripe_session_id = some sid →
      st.retrieve_result = Except.ok (s, intent) →
      (check_payment_status db pid st).1.payment = some (updated_payment payment s intent) ∧
      (updated_payment payment s intent).status = remoteToStatus s) ∧
    (∀ (ct : Nat → String) (db : List Payment) (u : Option Nat) (sid : String)
        (payment : Payment),
      sid ≠ "" → getBySession db sid = some payment →
      (payment_success_get ct db u (some sid)).2.1 =
        savePayment db { payment with status := PaymentStatus.paid }) := by
  refine ⟨?_, ?_, ?_⟩
  · intro db newId user course amount payment_method base_url st hfresh
    obtain ⟨pr, prr, sr, rr⟩ := st
    cases pr with
    | error e =>
      rw [create_payment_productFail_eq db newId user course amount payment_method base_url
            ⟨Except.error e, prr, sr, rr⟩ e hfresh rfl]
      exact ⟨_, rfl, rfl, Or.inr rfl⟩
    | ok product_id =>
      cases prr with
      | error e =>
        rw [create_payment_priceFail_eq db newId user course amount payment_method base_url
              ⟨Except.ok product_id, Except.error e, sr, rr⟩ product_id e hfresh rfl rfl]
        exact ⟨_, rfl, rfl, Or.inr rfl⟩
      | ok price_id =>
        cases sr with
        | error e =>
          rw [create_payment_sessionFail_eq db newId user course amount payment_method base_url
                ⟨Except.ok product_id, Except.ok price_id, Except.error e, rr⟩
                product_id price_id e hfresh rfl rfl rfl]
          exact ⟨_, rfl, rfl, Or.inr rfl⟩
        | ok sv =>
          obtain ⟨session_id, session_url⟩ := sv
          rw [create_payment_ok_eq db newId user course amount payment_method base_url
                ⟨Except.ok product_id, Except.ok price_id, Except.ok (session_id, session_url), rr⟩
                product_id price_id session_id session_url hfresh rfl rfl rfl]
          exact ⟨_, rfl, rfl, Or.inl rfl⟩
  · intro db pid st payment sid s intent hp hs hr
    rw [check_status_ok_eq db pid st payment sid s intent hp hs hr]
    exact ⟨rfl, updated_payment_status payment s intent⟩
  · intro ct db u sid payment hne hp
    rw [success_get_found_eq ct db u sid payment hne hp]

/-- Witness for the amended C1, instantiating all three conjuncts: a
successful creation on an empty store, a "paid" reconciliation of a PENDING
payment, and a success redirect over a FAILED payment. -/
theorem status_update_characterization_witness :
    (∃ p : Payment,
      (create_payment [] 5 1 { id := 3, title := "Course", description := "", owner := some 2 }
          1000 "card" "http://b"
          { product_result := Except.ok "prod_1", price_result := Except.ok "price_1",
            session_result := Except.ok ("sess_1", "https://pay/sess_1"),
            retrieve_result := Except.ok ("paid", none) }).2.1 = [] ++ [p] ∧
      p.id = 5 ∧ (p.status = PaymentStatus.pending ∨ p.status = PaymentStatus.failed)) ∧
    ((check_payment_status
        [{ id := 1, user := 2, course := 3, amount := 100, payment_method := "card",
           status := PaymentStatus.pending, stripe_product_id := none, stripe_price_id := none,
           stripe_session_id := some "sess_1", stripe_payment_intent_id := none,
           payment_url := none }] 1
        { product_result := Except.ok "", price_result := Except.ok "",
          session_result := Except.ok ("", ""),
          retrieve_result := Except.ok ("paid", none) }).1.payment =
      some (updated_payment
        { id := 1, user := 2, course := 3, amount := 100, payment_method := "card",
          status := PaymentStatus.pending, stripe_product_id := none, stripe_price_id := none,
          stripe_session_id := some "sess_1", stripe_payment_intent_id := none,
          payment_url := none } "paid" none) ∧
     (updated_payment
        { id := 1, user := 2, course := 3, amount := 100, payment_method := "card",
          status := PaymentStatus.pending, stripe_product_id := none, stripe_price_id := none,
          stripe_session_id := some "sess_1", stripe_payment_intent_id := none,
          payment_url := none } "paid" none).status = remoteToStatus "paid") ∧
    ((payment_success_get (fun _ => "Course 3")
        [{ id := 1, user := 2, course := 3, amount := 100, payment_method := "card",
           status := PaymentStatus.failed, stripe_product_id := none, stripe_price_id := none,
           stripe_session_id := some "sess_2", stripe_payment_intent_id := none,
           payment_url := none }] none (some "sess_2")).2.1 =
      savePayment
        [{ id := 1, user := 2, course := 3, amount := 100, payment_method := "card",
           status := PaymentStatus.failed, stripe_product_id := none, stripe_price_id := none,
           stripe_session_id := some "sess_2", stripe_payment_intent_id := none,
           payment_url := none }]
        { id := 1, user := 2, course := 3, amount := 100, payment_method := "card",
          status := PaymentStatus.paid, stripe_product_id := none, stripe_price_id := none,
          stripe_session_id := some "sess_2", stripe_payment_intent_id := none,
          payment_url := none }) :=
  ⟨status_update_characterization.1 [] 5 1
      { id := 3, title := "Course", description := "", owner := some 2 } 1000 "card" "http://b"
      { product_result := Except.ok "prod_1", price_result := Except.ok "price_1",
        session_result := Except.ok ("sess_1", "https://pay/sess_1"),
        retrieve_result := Except.ok ("paid", none) }
      (by intro q hq; cases hq),
   status_update_characterization.2.1
      [{ id := 1, user := 2, course := 3, amount := 100, payment_method := "card",
         status := PaymentStatus.pending, stripe_product_id := none, stripe_price_id := none,
         stripe_session_id := some "sess_1", stripe_payment_intent_id := none,
         payment_url := none }] 1
      { product_result := Except.ok "", price_result := Except.ok "",
        session_result := Except.ok ("", ""), retrieve_result := Except.ok ("paid", none) }
      { id := 1, user := 2, course := 3, amount := 100, payment_method := "card",
        status := PaymentStatus.pending, stripe_product_id := none, stripe_price_id := none,
        stripe_session_id := some "sess_1", stripe_payment_intent_id := none,
        payment_url := none } "sess_1" "paid" none rfl rfl rfl,
   status_update_characterization.2.2 (fun _ => "Course 3")
      [{ id := 1, user := 2, course := 3, amount := 100, payment_method := "card",
         status := PaymentStatus.failed, stripe_product_id := none, stripe_price_id := none,
         stripe_session_id := some "sess_2", stripe_payment_intent_id := none,
         payment_url := none }] none "sess_2"
      { id := 1, user := 2, course := 3, amount := 100, payment_method := "card",
        status := PaymentStatus.failed, stripe_product_id := none, stripe_price_id := none,
        stripe_session_id := some "sess_2", stripe_payment_intent_id := none,
        payment_url := none } (by decide) rfl⟩

/-- C9: `check_payment_status` is idempotent. When a call succeeds, running it
again on the resulting store with the same (unchanged) remote response gives
the identical result — same local status, same returned payment, same
database (the second save writes the value already stored), and the same
event trace. -/
theorem check_status_idempotent (db : List Payment) (pid : Nat) (st : StripeOracle)
    (h : (check_payment_status db pid st).1.success = true) :
    check_payment_status (check_payment_status db pid st).2.1 pid st =
      check_payment_status db pid st := by
  rcases hgb : getById db pid with _ | payment
  · rw [check_status_notFound_eq db pid st hgb] at h
    simp at h
  · rcases hss : payment.stripe_session_id with _ | sid
    · rw [check_status_noSession_eq db pid st payment hgb hss] at h
      simp at h
    · rcases hrr : st.retrieve_result with e | sv
      · rw [check_status_retrieveFail_eq db pid st payment sid e hgb hss hrr] at h
        simp at h
      · obtain ⟨s, intent⟩ := sv
        have h1 := check_status_ok_eq db pid st payment sid s intent hgb hss hrr
        have hid : (updated_payment payment s intent).id = pid := by
          rw [updated_payment_id]; exact getById_id hgb
        have hsome : (getById db (updated_payment payment s intent).id).isSome := by
          rw [hid, hgb]; rfl
        have hp2 : getById (savePayment db (updated_payment payment s intent)) pid =
            some (updated_payment payment s intent) := by
          have hx := getById_savePayment (updated_payment payment s intent) db hsome
          rw [hid] at hx
          exact hx
        have hs2 : (updated_payment payment s intent).stripe_session_id = some sid := by
          rw [updated_payment_session]
          exact hss
        have h2 := check_status_ok_eq (savePayment db (updated_payment payment s intent))
          pid st (updated_payment payment s intent) sid s intent hp2 hs2 hrr
        rw [h1]
        dsimp only
        rw [h2, updated_payment_idem,
          savePayment_savePayment db (updated_payment payment s intent)
            (updated_payment payment s intent) rfl]

/-- Witness for C9: a concrete second invocation under an unchanged "paid"
response reproduces the first invocation's result exactly. -/
theorem check_status_idempotent_witness :
    check_payment_status
        (check_payment_status
          [{ id := 1, user := 2, course := 3, amount := 100, payment_method := "card",
             status := PaymentStatus.pending, stripe_product_id := none, stripe_price_id := none,
             stripe_session_id := some "sess_1", stripe_payment_intent_id := none,
             payment_url := none }] 1
          { product_result := Except.ok "", price_result := Except.ok "",
            session_result := Except.ok ("", ""),
            retrieve_result := Except.ok ("paid", some "pi_1") }).2.1 1
        { product_result := Except.ok "", price_result := Except.ok "",
          session_result := Except.ok ("", ""),
          retrieve_result := Except.ok ("paid", some "pi_1") } =
      check_payment_status
        [{ id := 1, user := 2, course := 3, amount := 100, payment_method := "card",
           status := PaymentStatus.pending, stripe_product_id := none, stripe_price_id := none,
           stripe_session_id := some "sess_1", stripe_payment_intent_id := none,
           payment_url := none }] 1
        { product_result := Except.ok "", price_result := Except.ok "",
          session_result := Except.ok ("", ""),
          retrieve_result := Except.ok ("paid", some "pi_1") } :=
  check_status_idempotent
    [{ id := 1, user := 2, course := 3, amount := 100, payment_method := "card",
       status := PaymentStatus.pending, stripe_product_id := none, stripe_price_id := none,
       stripe_session_id := some "sess_1", stripe_payment_intent_id := none,
       payment_url := none }] 1
    { product_result := Except.ok "", price_result := Except.ok "",
      session_result := Except.ok ("", ""),
      retrieve_result := Except.ok ("paid", some "pi_1") } rfl
